import Mathlib

/-!
# Verification of the doc_app command-interpretation and mutation engine

A shallow embedding of the intent classifier (`ChatSidebar.detectIntent`,
`ChatSidebar.handleSubmit`), the agent command dispatcher
(`AgentContext.processAgentCommand`, `AgentContext.performWebSearch`),
the editor mutation bridge (`Editor.editorInsertContent`) and the
pending-suggestion accept/reject workflow (`Editor.handlePreviewAccept`,
`Editor.handlePreviewReject`, `ChatSidebar.modifyEditorContent`),
translated from the TypeScript sources in `src/doc-app/src/app`.

Strings are modelled as Lean `String`/`List Char`; the JavaScript string
operations used by the source (`toLowerCase`, `includes`, `trim`,
`String.prototype.replace` with a `/kw1|kw2|.../gi` alternation, and
`String.prototype.match` with `/https?:\/\/[^\s]+/`) are reproduced below.
The contentEditable document is modelled as its plain-text character
sequence; DOM `Range` handles become `(start, length)` index pairs and
`Range.deleteContents` / `Range.insertNode` become list splicing.
-/

namespace DocApp

/-- JS `String.prototype.toLowerCase` (ASCII inputs). -/
def jsLower (s : String) : String := String.mk (s.toList.map Char.toLower)

/-- Substring search over character lists: does `pat` occur in `s`?
Mirrors JS `String.prototype.includes`. -/
def containsSub (pat : List Char) : List Char → Bool
  | [] => pat.isPrefixOf ([] : List Char)
  | c :: rest => pat.isPrefixOf (c :: rest) || containsSub pat rest

/-- JS `s.includes(pat)`. -/
def strIncludes (s pat : String) : Bool := containsSub pat.toList s.toList

/-- JS whitespace test for `trim` / `\s` (ASCII whitespace). -/
def wsChar (c : Char) : Bool := c.isWhitespace

/-- JS `String.prototype.trim` on a character list. -/
def jsTrimList (l : List Char) : List Char :=
  ((l.dropWhile wsChar).reverse.dropWhile wsChar).reverse

/-- JS `String.prototype.trim`. -/
def jsTrim (s : String) : String := String.mk (jsTrimList s.toList)

/-- Case-insensitive prefix test: does keyword `k` match at the head of `s`?
This is a single regex alternative matching at the current position under
the `i` flag. -/
def ciHeadMatch : List Char → List Char → Bool
  | [], _ => true
  | _ :: _, [] => false
  | k :: ks, c :: cs => (k.toLower = c.toLower) && ciHeadMatch ks cs

/-- First alternative of the keyword alternation that matches at the head of
`s`, returning the number of characters it consumes.  Alternatives are tried
in the order they appear in the regex, as JS alternation does.  Empty
keywords are ignored (none of the source regexes has one). -/
def matchKwLen (kws : List (List Char)) (s : List Char) : Option Nat :=
  match kws with
  | [] => none
  | k :: rest =>
    if k ≠ [] && ciHeadMatch k s then some k.length else matchKwLen rest s

/-- One pass of JS `s.replace(/kw1|kw2|.../gi, '')`, fuelled.  At each
position the first matching alternative is deleted and scanning resumes
after it; otherwise the character is kept.  Every successful match consumes
at least one character (keywords are non-empty), so fuel `s.length`
always suffices and the fuel parameter never changes the result. -/
def replaceFuel (kws : List (List Char)) : Nat → List Char → List Char
  | _, [] => []
  | 0, s => s
  | Nat.succ f, c :: rest =>
    match matchKwLen kws (c :: rest) with
    | some n => replaceFuel kws f ((c :: rest).drop n)
    | none => c :: replaceFuel kws f rest

/-- JS `s.replace(/kw1|kw2|.../gi, '')` over a string. -/
def replaceAllCI (kws : List String) (s : String) : String :=
  String.mk (replaceFuel (kws.map String.toList) s.toList.length s.toList)

/-- Attempt of the regex `https?:\/\/[^\s]+` at the current position:
`https://` (preferred, `s?` is greedy) or `http://`, followed by at least
one non-whitespace character, matched greedily. -/
def urlAt (s : List Char) : Option (List Char) :=
  if ("https://".toList).isPrefixOf s then
    let body := (s.drop 8).takeWhile (fun c => !(wsChar c))
    if body = [] then none else some ("https://".toList ++ body)
  else if ("http://".toList).isPrefixOf s then
    let body := (s.drop 7).takeWhile (fun c => !(wsChar c))
    if body = [] then none else some ("http://".toList ++ body)
  else none

/-- Leftmost match of `https?:\/\/[^\s]+`, i.e. JS
`command.match(/https?:\/\/[^\s]+/)` (first element of the match). -/
def firstUrl : List Char → Option (List Char)
  | [] => none
  | c :: rest =>
    match urlAt (c :: rest) with
    | some u => some u
    | none => firstUrl rest

/-- JS `s.match(/https?:\/\/[^\s]+/)?.[0]` over a string. -/
def firstUrlStr (s : String) : Option String :=
  (firstUrl s.toList).map String.mk

end DocApp

namespace DocApp.ChatSidebar

open DocApp

/-- Result of `detectIntent` in `ChatSidebar.tsx` (lines 117-153): the
intent variants `{ type: 'editor_modify', action }`,
`{ type: 'create_and_insert' }`, `{ type: 'search', needsEditor }`,
`{ type: 'editor_insert' }` and `{ type: 'chat' }`. -/
inductive ChatIntent
  | editorModify (action : String)
  | createAndInsert
  | search (needsEditor : Bool)
  | editorInsert
  | chat
deriving DecidableEq, Repr

/-- `detectIntent` from `ChatSidebar.tsx`: case-insensitive keyword rules,
first match wins. -/
def detectIntent (message : String) : ChatIntent :=
  let lower := jsLower message
  if strIncludes lower "fix grammar" || strIncludes lower "correct" ||
      strIncludes lower "improve writing" then
    .editorModify "grammar"
  else if strIncludes lower "make professional" || strIncludes lower "formal tone" then
    .editorModify "professional"
  else if strIncludes lower "make casual" || strIncludes lower "friendly tone" then
    .editorModify "casual"
  else if strIncludes lower "summarize" || strIncludes lower "make shorter" then
    .editorModify "summarize"
  else if (strIncludes lower "write" || strIncludes lower "create") &&
      (strIncludes lower "insert" || strIncludes lower "add") then
    .createAndInsert
  else if strIncludes lower "search" || strIncludes lower "find" ||
      strIncludes lower "look up" then
    .search (strIncludes lower "insert" || strIncludes lower "add")
  else if strIncludes lower "insert" || strIncludes lower "add to editor" then
    .editorInsert
  else
    .chat

end DocApp.ChatSidebar

namespace DocApp.AgentContext

open DocApp

/-- A normalized search result as produced by `performWebSearch` in
`AgentContext.tsx` (the `SearchResult` interface). -/
structure SearchResult where
  title : String
  url : String
  snippet : String
deriving DecidableEq, Repr

/-- The `WebSearchResponse` interface of `AgentContext.tsx`. -/
structure WebSearchResponse where
  query : String
  results : List SearchResult
  summary : String
  totalResults : Nat
deriving DecidableEq, Repr

/-- A raw provider result item, before normalization.  `none` models a
missing (undefined) JSON field. -/
structure RawResult where
  title : Option String
  url : Option String
  snippet : Option String
deriving DecidableEq, Repr

/-- The `data.result` payload of a successful `/api/agent` response.
`results = none` models a payload with no `results` array (accessing
`.map` on it throws a `TypeError` in the source). -/
structure RawPayload where
  query : Option String
  results : Option (List RawResult)
  summary : Option String
  totalResults : Option Nat
deriving DecidableEq, Repr

/-- The parsed JSON body of an HTTP-200 `/api/agent` response. -/
structure AgentData where
  status : String
  result : Option RawPayload
deriving DecidableEq, Repr

/-- Outcome of the `fetch` call inside `performWebSearch`:
* `networkError msg` — `fetch` itself rejected (message `msg`);
* `httpError status detail` — `response.ok` was false and the error body
  parsed as JSON, with optional `detail` field;
* `httpErrorBadBody status` — `response.ok` was false and the error body
  was not JSON (the `.catch` supplies `{ detail: 'Unknown error' }`);
* `ok data` — HTTP success with parsed body `data`. -/
inductive FetchOutcome
  | networkError (msg : String)
  | httpError (status : Nat) (detail : Option String)
  | httpErrorBadBody (status : Nat)
  | ok (data : AgentData)
deriving DecidableEq, Repr

/-- JS `a || b` for an optional string field: a missing or empty (falsy)
field falls back to the default. -/
def jsOr (o : Option String) (d : String) : String :=
  match o with
  | none => d
  | some s => if s = "" then d else s

/-- Normalization of one raw result inside `performWebSearch`:
`title: result.title || 'Untitled'`, `url: result.url || '#'`,
`snippet: result.snippet || 'No description available'`. -/
def normalizeResult (r : RawResult) : SearchResult :=
  { title := jsOr r.title "Untitled"
    url := jsOr r.url "#"
    snippet := jsOr r.snippet "No description available" }

/-- The `catch` block of `performWebSearch` (lines 76-95): the thrown
message is inspected and one of three fixed user-facing summaries is
returned; the raw message never appears in the response. -/
def searchCatch (query thrownMsg : String) : WebSearchResponse :=
  let errorMessage :=
    if strIncludes thrownMsg "Failed to fetch" || strIncludes thrownMsg "NetworkError" then
      "Unable to connect to search service. Please check if the backend is running."
    else if strIncludes thrownMsg "web_search" then
      "Search feature is not available at the moment."
    else
      "Error performing search"
  { query := query, results := [], summary := errorMessage, totalResults := 0 }

/-- `performWebSearch` from `AgentContext.tsx` (lines 38-96), as a function
of the query and the fetch outcome.  All throw sites inside the `try` feed
`searchCatch`; the success path normalizes the payload. -/
def performWebSearch (query : String) (outcome : FetchOutcome) : WebSearchResponse :=
  match outcome with
  | .networkError msg => searchCatch query msg
  | .httpError status detail =>
    searchCatch query
      (jsOr detail ("HTTP error! status: " ++ toString status))
  | .httpErrorBadBody _ => searchCatch query "Unknown error"
  | .ok data =>
    if data.status ≠ "success" then
      searchCatch query "Invalid response format from server"
    else
      match data.result with
      | none => searchCatch query "Invalid response format from server"
      | some p =>
        match p.results with
        | none =>
          searchCatch query "TypeError: Cannot read properties of undefined (reading 'map')"
        | some rs =>
          { query := jsOr p.query query
            results := rs.map normalizeResult
            summary :=
              jsOr p.summary ("Found " ++ toString rs.length ++ " results for: " ++ query)
            totalResults :=
              match p.totalResults with
              | none => rs.length
              | some n => if n = 0 then rs.length else n }

/-- `true` on every outcome on which `performWebSearch` runs its `catch`
block (fetch rejection, non-ok HTTP status, or an `ok` body whose shape
fails the `status`/`result`/`results` checks). -/
def fetchFails : FetchOutcome → Bool
  | .networkError _ => true
  | .httpError _ _ => true
  | .httpErrorBadBody _ => true
  | .ok data =>
    data.status != "success" ||
      (match data.result with
       | none => true
       | some p => p.results.isNone)

/-- The externally observable step `processAgentCommand` resolves to
(which provider it calls, or which value it returns without a call). -/
inductive AgentStep
  | searchAndInsert (query : String)
  | crawl (url : String)
  | errorResponse (message : String)
  | summarizeStub
  | defaultSearch (query : String)
deriving DecidableEq, Repr

/-- Keyword alternation of the query extraction in the
search-and-insert branch of `processAgentCommand`:
`command.replace(/search|for|and|insert|into|editor|please/gi, '').trim()`. -/
def agentSearchKws : List String :=
  ["search", "for", "and", "insert", "into", "editor", "please"]

/-- Query extraction of the search-and-insert branch. -/
def extractAgentQuery (command : String) : String :=
  jsTrim (replaceAllCI agentSearchKws command)

/-- `processAgentCommand` from `AgentContext.tsx` (lines 148-206), reduced
to the classification step it takes.  The `throw` in the crawl branch is
caught by the surrounding `try`/`catch`, which returns
`{ type: 'error', message: error.message }`. -/
def processAgentCommand (command : String) : AgentStep :=
  let lowerCommand := jsLower command
  if strIncludes lowerCommand "search" && strIncludes lowerCommand "insert" then
    .searchAndInsert (extractAgentQuery command)
  else if strIncludes lowerCommand "crawl" || strIncludes lowerCommand "fetch" then
    match firstUrlStr command with
    | some u => .crawl u
    | none => .errorResponse "No valid URL found in command"
  else if strIncludes lowerCommand "summarize" then
    .summarizeStub
  else
    .defaultSearch command

end DocApp.AgentContext

namespace DocApp.Editor

open DocApp

/-- The `actionType` argument of the global `editorInsertContent` bridge
function in `Editor.tsx` (line 508). -/
inductive InsertActionType
  | insert
  | replace
  | append
deriving DecidableEq, Repr

/-- The document surface seen by the mutation bridge: the plain-text
content, the caret position (where `execCommand('insertHTML')` inserts),
and the active selection as a `(start, length)` range when
`window.getSelection()` has `rangeCount > 0`. -/
structure DomState where
  doc : List Char
  cursor : Nat
  selection : Option (Nat × Nat)
deriving DecidableEq, Repr

/-- Splice `content` over the range `[start, start+len)` of `doc`
(`range.deleteContents()` followed by `range.insertNode(...)`). -/
def spliceRange (doc : List Char) (start len : Nat) (content : List Char) : List Char :=
  doc.take start ++ content ++ doc.drop (start + len)

/-- The global `editorInsertContent` bridge from `Editor.tsx`
(lines 508-521).  The branch structure mirrors the source `if` chain:
the replace path runs only when a selection range exists; `append`
concatenates; every other case — including `replace` with no active
selection — falls through to the `execCommand('insertHTML')` insert
path at the caret.  The function returns only the new state: the source
returns `undefined` and reports no error to the caller. -/
def editorInsertContent (st : DomState) (htmlContent : List Char)
    (actionType : InsertActionType) : DomState :=
  if actionType = .replace ∧ st.selection.isSome then
    match st.selection with
    | some (start, len) =>
      { st with doc := spliceRange st.doc start len htmlContent }
    | none => st
  else if actionType = .append then
    { st with doc := st.doc ++ htmlContent }
  else
    { st with
        doc := st.doc.take st.cursor ++ htmlContent ++ st.doc.drop st.cursor
        cursor := st.cursor + htmlContent.length }

/-- The `previewData` state of `Editor.tsx` (lines 433-438): the captured
original text, the provider suggestion, the action label, and the cloned
selection `Range` modelled as a `(start, length)` pair. -/
structure PreviewData where
  original : List Char
  suggested : List Char
  actionType : String
  selectionRange : Option (Nat × Nat)
deriving DecidableEq, Repr

/-- The reset value `{ original: '', suggested: '', actionType: '',
selectionRange: null }`. -/
def emptyPreviewData : PreviewData :=
  { original := [], suggested := [], actionType := "", selectionRange := none }

/-- Editor component state relevant to the suggestion workflow. -/
structure EditorState where
  doc : List Char
  cursor : Nat
  showPreviewModal : Bool
  previewData : PreviewData
deriving DecidableEq, Repr

/-- The success path of `handleFloatingAction` (lines 612-627): store the
snapshot and suggestion in `previewData`, open the modal; the document is
not touched. -/
def triggerPreview (st : EditorState) (original suggested : List Char)
    (actionType : String) (range : Nat × Nat) : EditorState :=
  { st with
      previewData :=
        { original := original, suggested := suggested,
          actionType := actionType, selectionRange := some range }
      showPreviewModal := true }

/-- `handlePreviewAccept` from `Editor.tsx` (lines 638-653).  The guard is
the JS truthiness test `previewData.selectionRange && previewData.suggested`
(an empty suggestion string is falsy): only then is the stored range
deleted and the suggestion inserted as a text node, with the caret
collapsed to the end of the insertion.  In every case the modal closes and
`previewData` is reset. -/
def handlePreviewAccept (st : EditorState) : EditorState :=
  match st.previewData.selectionRange with
  | some (start, len) =>
    if st.previewData.suggested ≠ [] then
      { doc := spliceRange st.doc start len st.previewData.suggested
        cursor := start + st.previewData.suggested.length
        showPreviewModal := false
        previewData := emptyPreviewData }
    else
      { st with showPreviewModal := false, previewData := emptyPreviewData }
  | none => { st with showPreviewModal := false, previewData := emptyPreviewData }

/-- `handlePreviewReject` from `Editor.tsx` (lines 656-659): close the
modal and reset `previewData`; nothing else. -/
def handlePreviewReject (st : EditorState) : EditorState :=
  { st with showPreviewModal := false, previewData := emptyPreviewData }

end DocApp.Editor

namespace DocApp.ChatSidebar

open DocApp

/-- Keyword alternation of the search-query extraction in `handleSubmit`
(line 277): `currentInput.replace(/search|find|look up|for|please|insert|add/gi, '').trim()`. -/
def searchKws : List String :=
  ["search", "find", "look up", "for", "please", "insert", "add"]

/-- Search-query extraction of the `search` branch of `handleSubmit`. -/
def extractSearchQuery (input : String) : String :=
  jsTrim (replaceAllCI searchKws input)

/-- Keyword alternation of the prompt cleanup in the `create_and_insert`
branch (line 251): `currentInput.replace(/and insert|insert|add to editor|add it/gi, '')`. -/
def createKws : List String :=
  ["and insert", "insert", "add to editor", "add it"]

/-- Prompt sent to the completion provider by the `create_and_insert`
branch of `handleSubmit`. -/
def createPrompt (input : String) : String :=
  replaceAllCI createKws input ++
    ". Return only the content without any explanations or introductory text."

/-- The first external call `handleSubmit` (lines 231-323) issues for a
given input, as decided by `detectIntent`:
* `modifyEditorCall` — the `editor_modify` branch, delegating to
  `modifyEditorContent`;
* `createAndInsertCall` — the `create_and_insert` branch, calling the
  completion provider with the cleaned prompt;
* `searchProviderCall` — the `search` branch, calling `handleWebSearch`
  with the extracted query (whatever that query is);
* `chatProviderCall` — the fallback chat branch (also taken for
  `editor_insert`), calling the completion provider with the raw input. -/
inductive SubmitStep
  | modifyEditorCall (action : String)
  | createAndInsertCall (prompt : String)
  | searchProviderCall (query : String) (needsEditor : Bool)
  | chatProviderCall (prompt : String)
deriving DecidableEq, Repr

/-- The dispatch performed by `handleSubmit` in `ChatSidebar.tsx`. -/
def handleSubmit (input : String) : SubmitStep :=
  match detectIntent input with
  | .editorModify a => .modifyEditorCall a
  | .createAndInsert => .createAndInsertCall (createPrompt input)
  | .search ne => .searchProviderCall (extractSearchQuery input) ne
  | .editorInsert => .chatProviderCall input
  | .chat => .chatProviderCall input

/-- Outcome of the `/api/chat` fetch inside `modifyEditorContent`. -/
inductive ChatOutcome
  | ok (resp : String)
  | httpError
  | networkError
deriving DecidableEq, Repr

/-- Observable outcome of `modifyEditorContent`: the message returned to
the chat, whether the completion provider was called, and the editor's
plain-text content afterwards. -/
structure ModifyOutcome where
  message : String
  providerCalled : Bool
  content : String
deriving DecidableEq, Repr

/-- The success message of `modifyEditorContent` (line 199). -/
def modifyDoneMsg (action : String) : String :=
  "Content has been " ++
    (if action = "grammar" then "corrected"
     else if action = "professional" then "made more professional"
     else if action = "casual" then "made more casual"
     else "summarized") ++
    " in your editor."

/-- `modifyEditorContent` from `ChatSidebar.tsx` (lines 163-209), as a
function of the current editor plain-text content, the action, and the
provider outcome.  The guard `!currentContent || currentContent.trim() === ''`
returns early with no provider call and no mutation; on success
`setEditorContent` replaces the editor content with the provider response;
on HTTP failure the code falls through to the final generic return; on a
thrown fetch error the `catch` returns the retry message.  The editor
content is modelled as its plain text, so `setEditorContent`'s `<p>`
wrapper (markup, not text) does not appear. -/
def modifyEditorContent (currentContent : String) (action : String)
    (outcome : ChatOutcome) : ModifyOutcome :=
  if currentContent = "" || jsTrim currentContent = "" then
    { message := "No content found in the editor to modify."
      providerCalled := false
      content := currentContent }
  else
    match outcome with
    | .ok resp =>
      { message := modifyDoneMsg action, providerCalled := true, content := resp }
    | .httpError =>
      { message := "Unable to access editor content. Please ensure the editor is ready."
        providerCalled := true
        content := currentContent }
    | .networkError =>
      { message := "Failed to modify content. Please try again."
        providerCalled := true
        content := currentContent }

end DocApp.ChatSidebar

namespace DocApp

open DocApp.ChatSidebar DocApp.AgentContext DocApp.Editor

/-- C7: for the command `"crawl "` (a crawl keyword with no URL literal),
`processAgentCommand` returns an error response whose message is
`"No valid URL found in command"` and makes no crawl-provider call. -/
theorem C7_crawl_without_url :
    processAgentCommand "crawl " =
      AgentStep.errorResponse "No valid URL found in command" := by
  decide

/-- C5: after a transform is triggered on a snapshot, `handlePreviewReject`
performs no document mutation — the document and cursor read after the
reject are those from before the trigger — and the stored anchor and
suggestion are discarded (`previewData` is reset, the modal closed). -/
theorem C5_reject_is_pure_discard (st : EditorState) (o s : List Char)
    (a : String) (r : Nat × Nat) :
    (handlePreviewReject (triggerPreview st o s a r)).doc = st.doc ∧
    (handlePreviewReject (triggerPreview st o s a r)).cursor = st.cursor ∧
    (handlePreviewReject (triggerPreview st o s a r)).previewData = emptyPreviewData ∧
    (handlePreviewReject (triggerPreview st o s a r)).showPreviewModal = false := by
  refine ⟨rfl, rfl, rfl, rfl⟩

/-- C9: if `handlePreviewAccept` runs while the stored suggestion is empty
or no selection range was stored, the document and cursor are untouched and
only the pending preview state is cleared. -/
theorem C9_accept_guard_no_mutation (st : EditorState)
    (h : st.previewData.selectionRange = none ∨ st.previewData.suggested = []) :
    (handlePreviewAccept st).doc = st.doc ∧
    (handlePreviewAccept st).cursor = st.cursor ∧
    (handlePreviewAccept st).showPreviewModal = false ∧
    (handlePreviewAccept st).previewData = emptyPreviewData := by
  rcases h with h | h
  · simp [handlePreviewAccept, h]
  · unfold handlePreviewAccept
    cases hr : st.previewData.selectionRange with
    | none => simp
    | some p => cases p with | mk a b => simp [h]

/-- C9 witness: a concrete state with a stored range but an empty
suggestion, on which accepting changes nothing but the preview state. -/
theorem C9_accept_guard_no_mutation_witness :
    (handlePreviewAccept ⟨"abc".toList, 0, true, ⟨"a".toList, [], "edit", some (0, 1)⟩⟩).doc
        = (⟨"abc".toList, 0, true, ⟨"a".toList, [], "edit", some (0, 1)⟩⟩ : EditorState).doc ∧
    (handlePreviewAccept ⟨"abc".toList, 0, true, ⟨"a".toList, [], "edit", some (0, 1)⟩⟩).cursor
        = (⟨"abc".toList, 0, true, ⟨"a".toList, [], "edit", some (0, 1)⟩⟩ : EditorState).cursor ∧
    (handlePreviewAccept ⟨"abc".toList, 0, true, ⟨"a".toList, [], "edit", some (0, 1)⟩⟩).showPreviewModal = false ∧
    (handlePreviewAccept ⟨"abc".toList, 0, true, ⟨"a".toList, [], "edit", some (0, 1)⟩⟩).previewData = emptyPreviewData :=
  C9_accept_guard_no_mutation _ (Or.inr rfl)

/-- C10: when the editor's plain-text content is empty or whitespace-only,
`modifyEditorContent` returns the message
`"No content found in the editor to modify."`, calls no completion
provider, and leaves the content unchanged. -/
theorem C10_modify_empty_editor_guard (content action : String)
    (outcome : ChatOutcome) (h : jsTrim content = "") :
    modifyEditorContent content action outcome =
      { message := "No content found in the editor to modify."
        providerCalled := false
        content := content } := by
  unfold modifyEditorContent
  rw [h]
  simp

/-- C10 witness: whitespace-only content trips the guard. -/
theorem C10_modify_empty_editor_guard_witness :
    modifyEditorContent "   " "grammar" (ChatOutcome.ok "better") =
      { message := "No content found in the editor to modify."
        providerCalled := false
        content := "   " } :=
  C10_modify_empty_editor_guard "   " "grammar" (ChatOutcome.ok "better") (by decide)

end DocApp

namespace DocApp

open DocApp.ChatSidebar DocApp.AgentContext DocApp.Editor

/-- C4: accepting a transform whose stored anchor `(start, len o)` is a
valid range of the document holding the original text `o`, with a
non-empty provider suggestion `s`, leaves the document containing `s`
exactly at the original anchor location, changes the total document length
by `len s - len o`, and places the cursor at the end of the inserted
text. -/
theorem C4_accept_round_trip (doc o s : List Char) (start cursor : Nat)
    (a : String) (m : Bool)
    (hrange : start + o.length ≤ doc.length)
    (horig : (doc.drop start).take o.length = o)
    (hs : s ≠ []) :
    (handlePreviewAccept ⟨doc, cursor, m, ⟨o, s, a, some (start, o.length)⟩⟩).doc
        = doc.take start ++ s ++ doc.drop (start + o.length) ∧
    ((handlePreviewAccept ⟨doc, cursor, m, ⟨o, s, a, some (start, o.length)⟩⟩).doc.length : Int)
        - (doc.length : Int) = (s.length : Int) - (o.length : Int) ∧
    (handlePreviewAccept ⟨doc, cursor, m, ⟨o, s, a, some (start, o.length)⟩⟩).cursor
        = start + s.length := by
  have hstart : start ≤ doc.length := le_trans (Nat.le_add_right _ _) hrange
  have hacc : handlePreviewAccept ⟨doc, cursor, m, ⟨o, s, a, some (start, o.length)⟩⟩
      = ⟨spliceRange doc start o.length s, start + s.length, false, emptyPreviewData⟩ := by
    simp [handlePreviewAccept, hs]
  refine ⟨by rw [hacc]; rfl, ?_, by rw [hacc]⟩
  rw [hacc]
  simp only [spliceRange, List.length_append, List.length_take, List.length_drop]
  rw [Nat.min_eq_left hstart]
  omega

/-- C4 witness: accepting the suggestion `"dog!"` for the anchored original
`"cat"` inside `"The cat sat on mat"`. -/
theorem C4_accept_round_trip_witness :
    (handlePreviewAccept ⟨"The cat sat on mat".toList, 0, true,
        ⟨"cat".toList, "dog!".toList, "edit", some (4, ("cat".toList).length)⟩⟩).doc
        = "The cat sat on mat".toList.take 4 ++ "dog!".toList ++
            "The cat sat on mat".toList.drop (4 + ("cat".toList).length) ∧
    ((handlePreviewAccept ⟨"The cat sat on mat".toList, 0, true,
        ⟨"cat".toList, "dog!".toList, "edit", some (4, ("cat".toList).length)⟩⟩).doc.length : Int)
        - (("The cat sat on mat".toList).length : Int)
        = (("dog!".toList).length : Int) - (("cat".toList).length : Int) ∧
    (handlePreviewAccept ⟨"The cat sat on mat".toList, 0, true,
        ⟨"cat".toList, "dog!".toList, "edit", some (4, ("cat".toList).length)⟩⟩).cursor
        = 4 + ("dog!".toList).length :=
  C4_accept_round_trip "The cat sat on mat".toList "cat".toList "dog!".toList 4 0 "edit" true
    (by decide) (by decide) (by decide)

end DocApp

namespace DocApp

open DocApp.ChatSidebar DocApp.AgentContext DocApp.Editor

/-- C1 counterexample: with no active selection, invoking the bridge's
replace operation on the document `"hello"` (caret at 2) changes the
document — it is not a no-op — and produces exactly the insert-mode
result, i.e. a silent fallback to insert. -/
theorem C1_replace_counterexample :
    (editorInsertContent ⟨"hello".toList, 2, none⟩ "XY".toList .replace).doc
        ≠ "hello".toList ∧
    editorInsertContent ⟨"hello".toList, 2, none⟩ "XY".toList .replace
        = editorInsertContent ⟨"hello".toList, 2, none⟩ "XY".toList .insert := by
  decide

/-- C1 (amended): for every call to `editorInsertContent` with action type
replace made when there is no active selection, the call silently falls
back to insert-mode insertion at the caret — it behaves exactly as an
insert-mode call, and no error is reported to the caller. -/
theorem C1_replace_no_selection_falls_back (st : DomState) (html : List Char)
    (h : st.selection = none) :
    editorInsertContent st html InsertActionType.replace
      = editorInsertContent st html InsertActionType.insert := by
  unfold editorInsertContent
  simp [h]

/-- C1 witness: the fallback at a concrete state. -/
theorem C1_replace_no_selection_falls_back_witness :
    editorInsertContent ⟨"hello".toList, 2, none⟩ "<p>x</p>".toList InsertActionType.replace
      = editorInsertContent ⟨"hello".toList, 2, none⟩ "<p>x</p>".toList InsertActionType.insert :=
  C1_replace_no_selection_falls_back ⟨"hello".toList, 2, none⟩ "<p>x</p>".toList rfl

/-- C6 counterexample: `"generate a report and insert it"` contains the
generation verb `generate` together with the insertion verb `insert` and
matches no editor-transform rule, yet `detectIntent` classifies it as
`editor_insert`, not `create_and_insert` — the rule tests only
`write`/`create`, not `generate`. -/
theorem C6_generate_counterexample :
    detectIntent "generate a report and insert it" = ChatIntent.editorInsert ∧
    detectIntent "generate a report and insert it" ≠ ChatIntent.createAndInsert := by
  decide

/-- C6 (amended): for every command containing a generation verb among
`write`/`create` (the source does not test `generate`) together with an
insertion verb among `insert`/`add`, and matching no higher-precedence
editor-transform rule, `detectIntent` yields the `create_and_insert`
intent. -/
theorem C6_create_and_insert (msg : String)
    (h1 : (strIncludes (jsLower msg) "fix grammar" || strIncludes (jsLower msg) "correct" ||
        strIncludes (jsLower msg) "improve writing") = false)
    (h2 : (strIncludes (jsLower msg) "make professional" ||
        strIncludes (jsLower msg) "formal tone") = false)
    (h3 : (strIncludes (jsLower msg) "make casual" ||
        strIncludes (jsLower msg) "friendly tone") = false)
    (h4 : (strIncludes (jsLower msg) "summarize" ||
        strIncludes (jsLower msg) "make shorter") = false)
    (h5 : ((strIncludes (jsLower msg) "write" || strIncludes (jsLower msg) "create") &&
        (strIncludes (jsLower msg) "insert" || strIncludes (jsLower msg) "add")) = true) :
    detectIntent msg = ChatIntent.createAndInsert := by
  unfold detectIntent
  simp [h1, h2, h3, h4, h5]

/-- C6 witness: `"write a poem and insert it"` matches the amended rule. -/
theorem C6_create_and_insert_witness :
    detectIntent "write a poem and insert it" = ChatIntent.createAndInsert :=
  C6_create_and_insert "write a poem and insert it"
    (by decide) (by decide) (by decide) (by decide) (by decide)

end DocApp

namespace DocApp

open DocApp.ChatSidebar DocApp.AgentContext DocApp.Editor

/-- C2 counterexample: `"summarize https://example.com"` contains a
well-formed URL (the strict pattern extracts `https://example.com`), yet
classification does not yield a crawl intent: `detectIntent` yields the
summarize editor-transform (the transform keyword wins) and
`processAgentCommand` takes its summarize branch — a URL is honoured only
behind a `crawl`/`fetch` keyword. -/
theorem C2_url_counterexample :
    firstUrlStr "summarize https://example.com" = some "https://example.com" ∧
    detectIntent "summarize https://example.com" = ChatIntent.editorModify "summarize" ∧
    processAgentCommand "summarize https://example.com" = AgentStep.summarizeStub := by
  decide

/-- C2 (amended): for every command containing a crawl keyword
(`crawl`/`fetch`) and not both `search` and `insert`, if the command
contains a well-formed URL then `processAgentCommand` yields the crawl
step with the exact URL substring extracted verbatim, regardless of any
co-occurring transform keywords. -/
theorem C2_crawl_extracts_url (cmd u : String)
    (hkw : (strIncludes (jsLower cmd) "crawl" || strIncludes (jsLower cmd) "fetch") = true)
    (hsi : (strIncludes (jsLower cmd) "search" && strIncludes (jsLower cmd) "insert") = false)
    (hurl : firstUrlStr cmd = some u) :
    processAgentCommand cmd = AgentStep.crawl u := by
  unfold processAgentCommand
  simp [hkw, hsi, hurl]

/-- C2 witness: `"crawl https://example.com"`. -/
theorem C2_crawl_extracts_url_witness :
    processAgentCommand "crawl https://example.com" = AgentStep.crawl "https://example.com" :=
  C2_crawl_extracts_url "crawl https://example.com" "https://example.com"
    (by decide) (by decide) (by decide)

/-- C3 counterexample: for `"search for please"` the extraction strips
every word, leaving an empty query, yet `handleSubmit` still issues the
web-search provider call with the empty query; likewise
`"search and insert please"` leads `processAgentCommand` to its
search-and-insert branch with an empty extracted query.  No
missing-argument failover to chat occurs. -/
theorem C3_empty_extraction_counterexample :
    extractSearchQuery "search for please" = "" ∧
    handleSubmit "search for please" = SubmitStep.searchProviderCall "" false ∧
    extractAgentQuery "search and insert please" = "" ∧
    processAgentCommand "search and insert please" = AgentStep.searchAndInsert "" := by
  decide

/-- C3 (amended): classification performs no empty-argument guard — for
every command classified as a search, `handleSubmit` forwards the
extracted query (empty or not) to the search provider, and for every
command containing both `search` and `insert`, `processAgentCommand`
forwards its extracted query (empty or not) to the provider; neither fails
over to chat with a missing-argument error. -/
theorem C3_no_missing_argument_guard :
    (∀ (input : String) (ne : Bool), detectIntent input = ChatIntent.search ne →
        handleSubmit input = SubmitStep.searchProviderCall (extractSearchQuery input) ne) ∧
    (∀ cmd : String,
        (strIncludes (jsLower cmd) "search" && strIncludes (jsLower cmd) "insert") = true →
        processAgentCommand cmd = AgentStep.searchAndInsert (extractAgentQuery cmd)) := by
  constructor
  · intro input ne h
    unfold handleSubmit
    rw [h]
  · intro cmd h
    unfold processAgentCommand
    simp [h]

/-- C3 witness: both provider-forwarding branches at concrete commands
whose extraction is empty. -/
theorem C3_no_missing_argument_guard_witness :
    handleSubmit "search for please"
        = SubmitStep.searchProviderCall (extractSearchQuery "search for please") false ∧
    processAgentCommand "search and insert please"
        = AgentStep.searchAndInsert (extractAgentQuery "search and insert please") :=
  ⟨C3_no_missing_argument_guard.1 "search for please" false (by decide),
   C3_no_missing_argument_guard.2 "search and insert please" (by decide)⟩

end DocApp

namespace DocApp.AgentContext

/-- Every `catch`-path response of `performWebSearch` has empty results and
one of the three fixed user-facing summaries. -/
theorem searchCatch_canonical (q m : String) :
    (searchCatch q m).results = [] ∧
    ((searchCatch q m).summary =
        "Unable to connect to search service. Please check if the backend is running." ∨
      (searchCatch q m).summary = "Search feature is not available at the moment." ∨
      (searchCatch q m).summary = "Error performing search") := by
  refine ⟨rfl, ?_⟩
  unfold searchCatch
  split_ifs <;> simp

/-- C8: the dispatcher `performWebSearch` always returns a normalized
response value.  On success, each result's missing or empty title becomes
`"Untitled"` and each missing or empty snippet becomes
`"No description available"`, and the result list is exactly the provider
list normalized item by item.  On every provider failure — fetch
rejection, non-ok HTTP status, or a malformed success body — it returns a
value whose summary is one of three fixed human-readable messages, so no
raw provider error text (stack traces, credentials) can reach the
caller. -/
theorem C8_dispatcher_normalizes :
    (∀ r : RawResult, (r.title = none ∨ r.title = some "") →
        (normalizeResult r).title = "Untitled") ∧
    (∀ r : RawResult, (r.snippet = none ∨ r.snippet = some "") →
        (normalizeResult r).snippet = "No description available") ∧
    (∀ (q : String) (d : AgentData) (p : RawPayload) (rs : List RawResult),
        d.status = "success" → d.result = some p → p.results = some rs →
        (performWebSearch q (FetchOutcome.ok d)).results = rs.map normalizeResult) ∧
    (∀ (q : String) (o : FetchOutcome), fetchFails o = true →
        (performWebSearch q o).results = [] ∧
        ((performWebSearch q o).summary =
            "Unable to connect to search service. Please check if the backend is running." ∨
          (performWebSearch q o).summary = "Search feature is not available at the moment." ∨
          (performWebSearch q o).summary = "Error performing search")) := by
  refine ⟨?_, ?_, ?_, ?_⟩
  · rintro r (h | h) <;> simp [normalizeResult, jsOr, h]
  · rintro r (h | h) <;> simp [normalizeResult, jsOr, h]
  · intro q d p rs h1 h2 h3
    simp [performWebSearch, h1, h2, h3]
  · intro q o h
    cases o with
    | networkError m => exact searchCatch_canonical _ _
    | httpError status detail => exact searchCatch_canonical _ _
    | httpErrorBadBody status => exact searchCatch_canonical _ _
    | ok d =>
      by_cases hs : d.status = "success"
      · cases hr : d.result with
        | none =>
          have he : performWebSearch q (FetchOutcome.ok d)
              = searchCatch q "Invalid response format from server" := by
            simp [performWebSearch, hs, hr]
          rw [he]
          exact searchCatch_canonical _ _
        | some p =>
          cases hres : p.results with
          | none =>
            have he : performWebSearch q (FetchOutcome.ok d)
                = searchCatch q
                    "TypeError: Cannot read properties of undefined (reading 'map')" := by
              simp [performWebSearch, hs, hr, hres]
            rw [he]
            exact searchCatch_canonical _ _
          | some rs =>
            exfalso
            simp [fetchFails, hs, hr, hres] at h
      · have he : performWebSearch q (FetchOutcome.ok d)
            = searchCatch q "Invalid response format from server" := by
          simp [performWebSearch, hs]
        rw [he]
        exact searchCatch_canonical _ _

/-- C8 witness: each conjunct at a concrete instance — a titleless result,
a snippetless result, a well-formed empty success payload, and a fetch
rejection with the browser's `Failed to fetch` message. -/
theorem C8_dispatcher_normalizes_witness :
    (normalizeResult ⟨none, some "https://a", some "s"⟩).title = "Untitled" ∧
    (normalizeResult ⟨some "T", some "https://a", none⟩).snippet = "No description available" ∧
    (performWebSearch "q" (FetchOutcome.ok ⟨"success", some ⟨none, some [], none, none⟩⟩)).results
        = ([] : List RawResult).map normalizeResult ∧
    ((performWebSearch "q" (FetchOutcome.networkError "Failed to fetch")).results = [] ∧
      ((performWebSearch "q" (FetchOutcome.networkError "Failed to fetch")).summary =
          "Unable to connect to search service. Please check if the backend is running." ∨
        (performWebSearch "q" (FetchOutcome.networkError "Failed to fetch")).summary
            = "Search feature is not available at the moment." ∨
        (performWebSearch "q" (FetchOutcome.networkError "Failed to fetch")).summary
            = "Error performing search")) :=
  ⟨C8_dispatcher_normalizes.1 _ (Or.inl rfl),
   C8_dispatcher_normalizes.2.1 _ (Or.inl rfl),
   C8_dispatcher_normalizes.2.2.1 "q" _ _ _ rfl rfl rfl,
   C8_dispatcher_normalizes.2.2.2 "q" _ (by decide)⟩

end DocApp.AgentContext
